import Mathlib

/-!
Verification of the naver-blog-scraper core pipeline against its
natural-language specification.

The Python sources (`scraper.py`, `app.py`) are shallowly embedded:
pure data manipulation becomes Lean functions over an association-list
dictionary model, and effectful operations (HTTP requests, sleeping,
browser navigation, threading-event reads) become explicit effect
traces parametrised by oracles describing what the environment would
have answered at each observation point.
-/

namespace NaverScraper

/-! ## Dictionary model

Python dicts with string keys are modelled as association lists.
`{**d, k: v}` / `d[k] = v` becomes `Dict.insert`, which replaces the
first binding of the key in place (Python dicts have unique keys, so
this agrees with dict-update semantics for lookup). -/

inductive Val where
  | s (x : String)
  | n (x : Int)
deriving DecidableEq, Repr

abbrev Dict := List (String × Val)

def Dict.insert (d : Dict) (k : String) (v : Val) : Dict :=
  match d with
  | [] => [(k, v)]
  | (k', v') :: rest =>
    if k' == k then (k, v) :: rest else (k', v') :: Dict.insert rest k v

/-- `d[k]` as a partial read: `List.lookup` on the association list. -/
def Dict.get? (d : Dict) (k : String) : Option Val := List.lookup k d

/-- Python `d.get(k, default)`. -/
def Dict.getD (d : Dict) (k : String) (dflt : Val) : Val := (d.get? k).getD dflt

/-! ## String helpers mirroring the Python built-ins used by the scraper -/

/-- Python `needle in haystack` on strings (substring test). -/
def pyIn (needle haystack : String) : Bool :=
  haystack.data.tails.any (fun t => needle.data.isPrefixOf t)

/-- Python `str.isdigit()` (restricted to ASCII digits, which is what the
scraped counter widgets contain). -/
def pyIsdigit (s : String) : Bool :=
  !s.isEmpty && s.data.all Char.isDigit

/-- Python `int(s)` on a digit string. -/
def digitsToNat (l : List Char) : Nat :=
  l.foldl (fun a c => a * 10 + (c.toNat - 48)) 0

/-- Python `int(s)` on a string that passed `isdigit`. -/
def pyInt (s : String) : Int := (digitsToNat s.data : Int)

/-- Python `str.strip()`: drop whitespace from both ends. -/
def pyStrip (s : String) : String :=
  String.mk (((s.data.dropWhile Char.isWhitespace).reverse.dropWhile
    Char.isWhitespace).reverse)

/-- Python `s[:n]`. -/
def pyTake (n : Nat) (s : String) : String := String.mk (s.data.take n)

/-! ## Control gate checkpoint (`scraper._check_controls`)

`_check_controls(pause_event, stop_event, sleep_duration)` consults two
`threading.Event`s around a rate-limiting sleep.  The events are shared
with concurrently running control handlers, so each of the three
`stop_event.is_set()` reads may see a different value; the oracle
`CtrlObs` records what each read observed.  The blocking operations
(`time.sleep`, `pause_event.wait()`) are emitted as an effect trace. -/

structure CtrlObs where
  /-- value read by `stop_event.is_set()` at entry -/
  stopAtEntry : Bool
  /-- value read by `stop_event.is_set()` right after the sleep -/
  stopAfterSleep : Bool
  /-- value read by `stop_event.is_set()` after `pause_event.wait()` returned -/
  stopAfterWait : Bool
deriving DecidableEq, Repr

inductive CtrlEff where
  /-- `time.sleep(sleep_duration)` -/
  | sleepFor (d : ℚ)
  /-- `pause_event.wait()` — suspends (with no timeout) while the event is
      clear (Paused), returns as soon as it is set (Running) -/
  | pauseWait
deriving DecidableEq, Repr

/-- `scraper._check_controls`.  `hasPause`/`hasStop` record whether
`pause_event`/`stop_event` were `None`.  Returns the effect trace and the
result (`true` = stop, `false` = continue). -/
def check_controls (hasPause hasStop : Bool) (obs : CtrlObs) (sleep_duration : ℚ) :
    List CtrlEff × Bool :=
  if hasStop && obs.stopAtEntry then ([], true)
  else
    let effs : List CtrlEff := [.sleepFor sleep_duration]
    if hasStop && obs.stopAfterSleep then (effs, true)
    else
      let effs := effs ++ (if hasPause then [CtrlEff.pauseWait] else [])
      if hasStop && obs.stopAfterWait then (effs, true)
      else (effs, false)

/-! ## Browser frame and page model

A frame answers selector queries.  `query_selector` + `inner_text()` is
collapsed into one observation per selector: the element's text if an
element matched, `notFound` if `query_selector` returned `None`, and
`error` if either call raised. -/

inductive QueryRes where
  | found (text : String)
  | notFound
  | error
deriving DecidableEq, Repr

structure Frame where
  url : String
  /-- `frame.query_selector(sel)` + `.inner_text()` -/
  q : String → QueryRes
  /-- `frame.query_selector_all(sel)` + `.inner_text()` on each element;
      `none` means the call raised -/
  qAll : String → Option (List String)

/-- Outcome of `page.goto(url, ...)`: success, `PlaywrightTimeoutError`,
or any other exception (with its message). -/
inductive NavOutcome where
  | ok
  | timeout
  | fail (msg : String)
deriving DecidableEq, Repr

structure Page where
  nav : NavOutcome
  /-- `page.frames` (index 0 is the main frame) -/
  frames : List Frame
  /-- the page itself used as a frame (`content_frame = page` fallback) -/
  self : Frame

/-! ## `scraper._extract_content` and friends -/

/-- Sentinel returned by `_extract_content` when extraction fails. -/
def contentFailSentinel : String := "[본문 추출 실패]"

/-- `scraper._extract_content`: query the four container selectors in
order; the first selector with a matching element decides the result
(its stripped inner text); a raise anywhere yields the sentinel. -/
def extract_content (f : Frame) : String :=
  match f.q ".se-main-container" with
  | .error => contentFailSentinel
  | .found t => pyStrip t
  | .notFound =>
    match f.q "#postViewArea" with
    | .error => contentFailSentinel
    | .found t => pyStrip t
    | .notFound =>
      match f.q "#post-view" with
      | .error => contentFailSentinel
      | .found t => pyStrip t
      | .notFound =>
        match f.q ".se_component_wrap" with
        | .error => contentFailSentinel
        | .found t => pyStrip t
        | .notFound => contentFailSentinel

/-- `scraper._extract_likes`: four prioritized lookups; a non-digit text
falls through to the next priority; any raise returns 0. -/
def extract_likes (f : Frame) : Int :=
  match f.q "span.u_likeit_list_count._count" with
  | .error => 0
  | r1 =>
    match (match r1 with
           | .found t => if pyIsdigit (pyStrip t) then some (pyInt (pyStrip t)) else none
           | _ => none) with
    | some v => v
    | none =>
      match f.q "span.u_likeit_text._count" with
      | .error => 0
      | r2 =>
        match (match r2 with
               | .found t => if pyIsdigit (pyStrip t) then some (pyInt (pyStrip t)) else none
               | _ => none) with
        | some v => v
        | none =>
          match f.q "#sympathyCount" with
          | .error => 0
          | r3 =>
            match (match r3 with
                   | .found t => if pyIsdigit (pyStrip t) then some (pyInt (pyStrip t)) else none
                   | _ => none) with
            | some v => v
            | none =>
              match f.qAll "span.u_likeit_list_count._count" with
              | none => 0
              | some ts =>
                if ts.isEmpty then 0
                else
                  let total := ts.foldl
                    (fun a t => if pyIsdigit (pyStrip t) then a + pyInt (pyStrip t) else a) 0
                  if total > 0 then total else 0

/-- `re.search(r"댓글\s*(\d+)", text)`: first position where the keyword
is followed (after whitespace) by at least one digit. -/
def searchCommentCount (kw : List Char) : List Char → Option Nat
  | [] => none
  | c :: rest =>
    if kw.isPrefixOf (c :: rest) then
      let after := (c :: rest).drop kw.length
      let ds := (after.dropWhile Char.isWhitespace).takeWhile Char.isDigit
      if ds.isEmpty then searchCommentCount kw rest else some (digitsToNat ds)
    else searchCommentCount kw rest

/-- `scraper._extract_comments`: four prioritized lookups; any raise
returns 0. -/
def extract_comments (f : Frame) : Int :=
  match f.q "#floating_bottom_commentCount" with
  | .error => 0
  | r1 =>
    match (match r1 with
           | .found t => if pyIsdigit (pyStrip t) then some (pyInt (pyStrip t)) else none
           | _ => none) with
    | some v => v
    | none =>
      match f.q "a.btn_comment" with
      | .error => 0
      | r2 =>
        match (match r2 with
               | .found t => (searchCommentCount "댓글".data (pyStrip t).data).map Int.ofNat
               | _ => none) with
        | some v => v
        | none =>
          match f.q "span.comment_wrap" with
          | .error => 0
          | r3 =>
            match (match r3 with
                   | .found t => (searchCommentCount "댓글".data (pyStrip t).data).map Int.ofNat
                   | _ => none) with
            | some v => v
            | none =>
              match f.qAll "a, button, span" with
              | none => 0
              | some ts =>
                match ts.findSome?
                    (fun t => searchCommentCount "댓글".data (pyStrip t).data) with
                | some v => (v : Int)
                | none => 0

/-- Frame lookup inside `scrape_post_detail`: first frame whose url is
non-empty and contains `"PostView"`, else the second frame, else the
page itself. -/
def findContentFrame (p : Page) : Frame :=
  match p.frames.find? (fun f => !(f.url == "") && pyIn "PostView" f.url) with
  | some f => f
  | none =>
    if p.frames.length > 1 then (p.frames.get? 1).getD p.self else p.self

/-! ## `scraper.scrape_post_detail` -/

inductive DetailEff where
  /-- `page.goto(url, wait_until="domcontentloaded", timeout=20000)` -/
  | goto
  /-- `page.wait_for_timeout(2000)` -/
  | waitLoad
  /-- `content_frame.wait_for_selector(..., timeout=5000)` (best effort,
      its timeout is swallowed) -/
  | waitSelector
  | callExtractContent
  | callExtractLikes
  | callExtractComments
deriving DecidableEq, Repr

/-- `fields is None or f in fields`. -/
def wantsField (fields : Option (List String)) (f : String) : Bool :=
  match fields with
  | none => true
  | some fs => fs.contains f

/-- `scraper.scrape_post_detail(page, post_meta, fields, content_mode)`.

Returns `none` only for the `KeyError` raised by `post_meta["url"]`
(the sole statement outside the `try`); every other failure is absorbed
into the returned dict.  Exceptions inside the `try` are summarized by
`page.nav` (navigation is the only uncaught raise site: the selector
wait swallows its timeout and the extraction helpers catch
internally). -/
def scrape_post_detail (page : Page) (post_meta : Dict)
    (fields : Option (List String)) (content_mode : String) :
    Option (Dict × List DetailEff) :=
  match post_meta.get? "url" with
  | none => none
  | some _ =>
    let result := post_meta.insert "content"
        (if content_mode == "preview" then post_meta.getD "snippet" (.s "") else .s "")
    let result := result.insert "likes" (.n 0)
    let result := result.insert "comments" (.n 0)
    match page.nav with
    | .timeout =>
      some (if content_mode == "full" then
              result.insert "content" (.s "[타임아웃: 페이지 로드 실패]")
            else result,
            [.goto])
    | .fail msg =>
      some (if content_mode == "full" then
              result.insert "content" (.s ("[오류: " ++ pyTake 200 msg ++ "]"))
            else result,
            [.goto])
    | .ok =>
      let cf := findContentFrame page
      let result :=
        if content_mode == "full" then
          result.insert "content" (.s (extract_content cf))
        else result
      let result :=
        if wantsField fields "likes" then
          result.insert "likes" (.n (extract_likes cf))
        else result
      let result :=
        if wantsField fields "comments" then
          result.insert "comments" (.n (extract_comments cf))
        else result
      let effs : List DetailEff :=
        [.goto, .waitLoad]
          ++ (if content_mode == "full" then [.callExtractContent] else [])
          ++ (if wantsField fields "likes" || wantsField fields "comments" then
                [.waitSelector] else [])
          ++ (if wantsField fields "likes" then [.callExtractLikes] else [])
          ++ (if wantsField fields "comments" then [.callExtractComments] else [])
      some (result, effs)

/-! ## `scraper.scrape_all_posts` (Pipeline Orchestrator)

The generator is modelled as the list of effects it performs while fully
consumed.  Concurrent mutation of the two events is captured by the
oracle `PipeCtrl`: what `stop_event.is_set()` read at the head of each
iteration, the `CtrlObs` for each `_check_controls` call, and the value
drawn by `random.uniform` for each inter-item delay. -/

structure PipeCtrl where
  /-- `stop_event.is_set()` at the head of iteration `i` -/
  stopAt : Nat → Bool
  /-- observations of the `_check_controls` call after item `i` -/
  obsAt : Nat → CtrlObs
  /-- value drawn by `random.uniform(..)` for the delay after item `i` -/
  delayAt : Nat → ℚ

inductive PipeEff where
  | browserLaunch
  | browserClose
  | yieldItem (d : Dict)
  | progress (i total : Nat) (d : Dict)
  | checkpoint (effs : List CtrlEff)
  /-- an uncaught exception left the generator (only the `KeyError` of a
      metadata item with no `"url"` key in this model) -/
  | raised
deriving DecidableEq, Repr

/-- Metadata-only item construction (the `else` branch of
`scrape_all_posts`). -/
def metaItem (content_mode : String) (post_meta : Dict) : Dict :=
  let result := post_meta
  let result :=
    if content_mode == "preview" then
      result.insert "content" (post_meta.getD "snippet" (.s ""))
    else if content_mode == "none" then
      result.insert "content" (.s "")
    else result
  (result.insert "likes" (.n 0)).insert "comments" (.n 0)

/-- The Playwright-needed decision in `scrape_all_posts`. -/
def need_playwright (fields : Option (List String)) (content_mode : String) : Bool :=
  content_mode == "full"
    || (fields.isSome && ((fields.getD []).contains "likes"
          || (fields.getD []).contains "comments"))
    || fields.isNone

/-- The browser-mode item loop of `scrape_all_posts` (iteration `i`,
remaining metadata `posts`). -/
def browserLoop (fields : Option (List String)) (content_mode : String)
    (hasCb hasPause hasStop : Bool) (ctrl : PipeCtrl) (pageAt : Nat → Page)
    (total : Nat) : Nat → List Dict → List PipeEff
  | _, [] => []
  | i, post_meta :: rest =>
    if hasStop && ctrl.stopAt i then []
    else
      match scrape_post_detail (pageAt i) post_meta fields content_mode with
      | none => [.raised]
      | some (detail, _) =>
        ((if hasCb then [PipeEff.progress (i + 1) total detail] else [])
          ++ [PipeEff.yieldItem detail])
          ++ (if i < total - 1 then
                let ck := check_controls hasPause hasStop (ctrl.obsAt i) (ctrl.delayAt i)
                PipeEff.checkpoint ck.1 ::
                  (if ck.2 then [] else browserLoop fields content_mode hasCb
                    hasPause hasStop ctrl pageAt total (i + 1) rest)
              else browserLoop fields content_mode hasCb hasPause hasStop ctrl
                pageAt total (i + 1) rest)

/-- The metadata-only item loop of `scrape_all_posts`. -/
def metaLoop (content_mode : String) (hasCb hasPause hasStop : Bool)
    (ctrl : PipeCtrl) (total : Nat) : Nat → List Dict → List PipeEff
  | _, [] => []
  | i, post_meta :: rest =>
    if hasStop && ctrl.stopAt i then []
    else
      let result := metaItem content_mode post_meta
      ((if hasCb then [PipeEff.progress (i + 1) total result] else [])
        ++ [PipeEff.yieldItem result])
        ++ (if i < total - 1 then
              let ck := check_controls hasPause hasStop (ctrl.obsAt i) (ctrl.delayAt i)
              PipeEff.checkpoint ck.1 ::
                (if ck.2 then [] else metaLoop content_mode hasCb hasPause
                  hasStop ctrl total (i + 1) rest)
            else metaLoop content_mode hasCb hasPause hasStop ctrl total (i + 1) rest)

/-- `scraper.scrape_all_posts` after the metadata list `posts` has been
fetched (the `fetch_search_list` phase is modelled separately).  The
browser session is released via `finally`, so `browserClose` follows the
loop on every path, including the raising one. -/
def scrape_all_posts (posts : List Dict) (fields : Option (List String))
    (content_mode : String) (hasCb hasPause hasStop : Bool)
    (ctrl : PipeCtrl) (pageAt : Nat → Page) : List PipeEff :=
  let total := posts.length
  if need_playwright fields content_mode then
    PipeEff.browserLaunch ::
      browserLoop fields content_mode hasCb hasPause hasStop ctrl pageAt total 0 posts
      ++ [PipeEff.browserClose]
  else
    metaLoop content_mode hasCb hasPause hasStop ctrl total 0 posts

/-! ## Search Client (`scraper.count_posts`, `scraper.fetch_search_list`)

The remote endpoint is an oracle: a total count and, for each page
number, the `searchList` items of a well-formed response (the
`UpstreamError` path — non-2xx or unparseable payload — aborts the run
and is modelled at the session layer as a run error). -/

mutual

/-- `re.sub(r"<[^>]+>", "", text)`, scanning state outside a tag. -/
def stripTagsGo : List Char → List Char
  | [] => []
  | c :: rest =>
    if c = '<' then stripTagsInTag [] rest else c :: stripTagsGo rest
termination_by l => l.length

/-- Scanning state after `<` with `acc` the chars read since (none of
them `>`).  `<>` never matches (the regex needs at least one inner
char); an unclosed `<` at end of input is kept literally. -/
def stripTagsInTag (acc : List Char) : List Char → List Char
  | [] => '<' :: acc
  | c :: rest =>
    if c = '>' then
      if acc.isEmpty then '<' :: c :: stripTagsGo rest
      else stripTagsGo rest
    else stripTagsInTag (acc ++ [c]) rest
termination_by l => l.length

end

/-- `scraper._strip_html`: drop HTML tags, then `str.strip()`. -/
def strip_html (s : String) : String :=
  pyStrip (String.mk (stripTagsGo s.data))

/-- `scraper._format_timestamp`.  The conversion of `ts / 1000` seconds
to a `YYYY.MM.DD` string depends on the machine's local timezone; it is
abstracted as the oracle `localDate` (applied to the raw millisecond
timestamp).  A zero timestamp maps to the empty string. -/
def format_timestamp (localDate : Nat → String) (ts : Nat) : String :=
  if ts = 0 then "" else localDate ts

def ITEMS_PER_PAGE : Nat := 7

/-- One entry of `data["result"]["searchList"]`, with the `item.get(k,
default)` defaults already applied. -/
structure SearchItem where
  postUrl : String
  title : String
  nickName : String
  blogName : String
  addDate : Nat
  domainIdOrBlogId : String
  logNo : Int
  contents : String

structure SearchRemote where
  totalCount : Nat
  pageItems : Nat → List SearchItem

inductive FetchEff where
  /-- the request issued by `count_posts` -/
  | countReq
  /-- the request for `currentPage = page` in the fetch loop -/
  | pageReq (page : Nat)
  /-- `time.sleep(random.uniform(lo, hi))` between page requests -/
  | interDelay (lo hi : ℚ)
deriving DecidableEq, Repr

/-- Recognizer for page requests among fetch effects. -/
def isPageReq : FetchEff → Bool
  | .pageReq _ => true
  | _ => false

/-- The PostMeta dict built from one search item in `fetch_search_list`. -/
def toPostMeta (localDate : Nat → String) (it : SearchItem) : Dict :=
  [("url", .s it.postUrl),
   ("title", .s (strip_html it.title)),
   ("author", .s it.nickName),
   ("blog_name", .s it.blogName),
   ("date", .s (format_timestamp localDate it.addDate)),
   ("blog_id", .s it.domainIdOrBlogId),
   ("log_no", .n it.logNo),
   ("snippet", .s (strip_html it.contents))]

/-- `scraper.count_posts`: one request, returns the reported total. -/
def count_posts (r : SearchRemote) : List FetchEff × Nat :=
  ([.countReq], r.totalCount)

/-- The `for page in range(1, total_pages + 1)` loop of
`fetch_search_list`; `rem` is the number of remaining iterations. -/
def fetchLoop (localDate : Nat → String) (r : SearchRemote)
    (total_pages : Nat) : Nat → Nat → List FetchEff × List Dict
  | _, 0 => ([], [])
  | page, rem + 1 =>
    let items := (r.pageItems page).map (toPostMeta localDate)
    let (es, ps) := fetchLoop localDate r total_pages (page + 1) rem
    (FetchEff.pageReq page ::
       ((if page < total_pages then [FetchEff.interDelay (3/10) (4/5)] else []) ++ es),
     items ++ ps)

/-- `scraper.fetch_search_list`: `count_posts`, then `math.ceil(total /
ITEMS_PER_PAGE)` page requests concatenating the transformed items. -/
def fetch_search_list (localDate : Nat → String) (r : SearchRemote) :
    List FetchEff × List Dict :=
  let total := (count_posts r).2
  let total_pages := (total + (ITEMS_PER_PAGE - 1)) / ITEMS_PER_PAGE
  let (es, ps) := fetchLoop localDate r total_pages 1 total_pages
  ((count_posts r).1 ++ es, ps)

/-! ## Session Manager (`app.scrape_session`, `app.api_scrape.generate`,
`app.api_pause` / `api_resume` / `api_stop`)

`threading.Event` objects live in an arena `evs : List Bool` (the flag
value), and the session dict holds optional references into it.  A new
`Event()` is appended to the arena. -/

structure Sess where
  active : Bool
  /-- `scrape_session["pause_event"]` (set = running, clear = paused) -/
  pauseRef : Option Nat
  /-- `scrape_session["stop_event"]` (set = stop requested) -/
  stopRef : Option Nat
  evs : List Bool
deriving DecidableEq, Repr

/-- The force-stop prologue of `generate`: if a session is active and
has a stop event, set it, and set the pause event so a paused generator
can observe the stop. -/
def generate_force_stop_old (s : Sess) : Sess :=
  if s.active && s.stopRef.isSome then
    let evs := match s.stopRef with
               | some i => s.evs.set i true
               | none => s.evs
    let evs := match s.pauseRef with
               | some j => evs.set j true
               | none => evs
    { s with evs := evs }
  else s

/-- The gate-installation step of `generate`: construct a fresh pause
event (set = running) and a fresh stop event (clear), install both and
mark the session active. -/
def generate_install_new (s : Sess) : Sess :=
  let pid := s.evs.length
  let evs := s.evs ++ [true]
  let sid := evs.length
  let evs := evs ++ [false]
  { active := true, pauseRef := some pid, stopRef := some sid, evs := evs }

/-- Server-sent events of the scrape stream.  The per-item
`active_fields` projection of the detail dict into `event_data` is not
modelled; the item event carries the detail dict itself. -/
inductive SSE where
  | init (total : Nat)
  | item (d : Dict)
  | done
  | stopped
  | error (msg : String)
deriving DecidableEq, Repr

def SSE.isTerminal : SSE → Bool
  | .done => true
  | .stopped => true
  | .error _ => true
  | _ => false

/-- Where (if anywhere) an exception escaped the `try` body of
`generate`: nowhere, in `count_posts`, or while producing item `k` of
the lazy sequence. -/
inductive RunErr where
  | noErr
  | atCount (msg : String)
  | atItem (k : Nat) (msg : String)
deriving DecidableEq, Repr

/-- The `try` body of `generate`: init event, item events, then exactly
one of done/stopped; an escaping exception is caught by the `except`
clause, which emits the error event instead.  `stopAtEnd` is the value
`stop_event.is_set()` reads after the item loop. -/
def generate_body (total : Nat) (items : List Dict) (err : RunErr)
    (stopAtEnd : Bool) : List SSE :=
  match err with
  | .atCount msg => [.error msg]
  | .atItem k msg => SSE.init total :: ((items.take k).map SSE.item ++ [.error msg])
  | .noErr =>
    SSE.init total ::
      (items.map SSE.item ++ [if stopAtEnd then SSE.stopped else SSE.done])

/-- The whole `generate` generator: force-stop prologue, fresh-gate
installation, body, and the `finally` cleanup (which runs on every exit
path).  Returns the final session state and the emitted stream. -/
def generate_run (s : Sess) (total : Nat) (items : List Dict) (err : RunErr)
    (stopAtEnd : Bool) : Sess × List SSE :=
  let s1 := generate_install_new (generate_force_stop_old s)
  let out := generate_body total items err stopAtEnd
  ({ s1 with active := false, pauseRef := none, stopRef := none }, out)

/-- Responses of the three control endpoints. -/
inductive CtrlResp where
  /-- HTTP 409, "활성 스크래핑 세션이 없습니다" -/
  | noActive
  | ok (status : String)
deriving DecidableEq, Repr

/-- `app.api_pause`. -/
def api_pause (s : Sess) : Sess × CtrlResp :=
  match s.pauseRef, s.active with
  | some j, true => ({ s with evs := s.evs.set j false }, .ok "paused")
  | _, _ => (s, .noActive)

/-- `app.api_resume`. -/
def api_resume (s : Sess) : Sess × CtrlResp :=
  match s.pauseRef, s.active with
  | some j, true => ({ s with evs := s.evs.set j true }, .ok "resumed")
  | _, _ => (s, .noActive)

/-- `app.api_stop`: set the stop event, and set the pause event (if one
is installed) so a paused waiter observes the stop. -/
def api_stop (s : Sess) : Sess × CtrlResp :=
  match s.stopRef, s.active with
  | some i, true =>
    let evs := s.evs.set i true
    let evs := match s.pauseRef with
               | some j => evs.set j true
               | none => evs
    ({ s with evs := evs }, .ok "stopped")
  | _, _ => (s, .noActive)

/-! ## Spec-side comparison definition and concrete fixtures -/

/-- First query result along a selector list that is not `notFound`
(i.e. the first selector for which `query_selector` returned an element
or raised). -/
def firstFound (f : Frame) : List String → QueryRes
  | [] => .notFound
  | sel :: rest =>
    match f.q sel with
    | .notFound => firstFound f rest
    | r => r

/-- The four container selectors tried by `_extract_content`, in source
order. -/
def contentSelectors : List String :=
  [".se-main-container", "#postViewArea", "#post-view", ".se_component_wrap"]

/-- The claimed behaviour of `_extract_content`, transcribed from the
spec sentence: tries the four container selectors in order and returns
the first NON-EMPTY text result; if all four fail to yield a non-empty
result, returns the sentinel failure marker. -/
def extract_content_claimed (f : Frame) : String :=
  match contentSelectors.filterMap (fun sel =>
      match f.q sel with
      | .found t => if pyStrip t == "" then none else some (pyStrip t)
      | _ => none) with
  | [] => contentFailSentinel
  | t :: _ => t

/-- A frame with no matching elements. -/
def emptyFrame : Frame :=
  { url := "", q := fun _ => .notFound, qAll := fun _ => some [] }

/-- Frame where the modern editor container matches with
whitespace-only text while a legacy container has real text. -/
def cexFrame : Frame :=
  { url := ""
    q := fun sel =>
      if sel == ".se-main-container" then .found " "
      else if sel == "#postViewArea" then .found "hello"
      else .notFound
    qAll := fun _ => some [] }

/-- A page whose navigation succeeds and whose document has no
recognizable containers or widgets. -/
def pageOk : Page := { nav := .ok, frames := [], self := emptyFrame }

/-- A page whose navigation raises `PlaywrightTimeoutError`. -/
def pageTimeout : Page := { nav := .timeout, frames := [], self := emptyFrame }

/-- A concrete metadata item. -/
def metaFix : Dict :=
  [("url", .s "https://blog.example/post/1"), ("snippet", .s "snip")]

/-- A concrete active session: pause event at index 0 (set = running),
stop event at index 1 (clear). -/
def sessFix : Sess :=
  { active := true, pauseRef := some 0, stopRef := some 1, evs := [true, false] }

/-- A concrete control oracle for pipeline runs. -/
def ctrlFix : PipeCtrl :=
  { stopAt := fun _ => false
    obsAt := fun _ => ⟨false, false, false⟩
    delayAt := fun _ => 1 }

theorem Dict.get?_insert_self (d : Dict) (k : String) (v : Val) :
    (d.insert k v).get? k = some v := by
  induction d with
  | nil => simp [Dict.insert, Dict.get?, List.lookup]
  | cons kv rest ih =>
    obtain ⟨k', v'⟩ := kv
    by_cases h : k' = k
    · simp [Dict.insert, Dict.get?, List.lookup, h]
    · have hb : (k' == k) = false := beq_eq_false_iff_ne.mpr h
      have hb' : (k == k') = false := beq_eq_false_iff_ne.mpr (Ne.symm h)
      simp only [Dict.insert, hb, Bool.false_eq_true, if_false, Dict.get?,
        List.lookup, hb'] at *
      exact ih

theorem Dict.get?_insert_ne (d : Dict) (k k' : String) (v : Val) (h : k' ≠ k) :
    (d.insert k v).get? k' = d.get? k' := by
  have hb : (k' == k) = false := beq_eq_false_iff_ne.mpr h
  induction d with
  | nil => simp [Dict.insert, Dict.get?, List.lookup, hb]
  | cons kv rest ih =>
    obtain ⟨k₀, v₀⟩ := kv
    by_cases h0 : k₀ = k
    · subst h0
      simp [Dict.insert, Dict.get?, List.lookup, hb]
    · have hb0 : (k₀ == k) = false := beq_eq_false_iff_ne.mpr h0
      by_cases h1 : k' = k₀
      · subst h1
        simp [Dict.insert, Dict.get?, List.lookup, hb0]
      · have hb1 : (k' == k₀) = false := beq_eq_false_iff_ne.mpr h1
        simp only [Dict.insert, hb0, Bool.false_eq_true, if_false, Dict.get?,
          List.lookup, hb1] at *
        exact ih

/-- C1: `_check_controls` with a pause flag, a stop flag, and a delay:
if the stop flag is set on entry it signals stop immediately without
sleeping; otherwise it sleeps for the delay and re-checks the stop flag,
signalling stop if set — before any paused wait begins; otherwise it
waits on the pause gate (suspending, with no timeout, until it is set =
Running) and after resuming re-checks the stop flag once more before
returning continue — so a stop requested while paused is signalled
rather than continuing. -/
theorem check_controls_checkpoint_order (obs : CtrlObs) (d : ℚ) :
    (obs.stopAtEntry = true → check_controls true true obs d = ([], true))
    ∧ (obs.stopAtEntry = false → obs.stopAfterSleep = true →
        check_controls true true obs d = ([CtrlEff.sleepFor d], true))
    ∧ (obs.stopAtEntry = false → obs.stopAfterSleep = false →
        check_controls true true obs d
          = ([CtrlEff.sleepFor d, CtrlEff.pauseWait], obs.stopAfterWait)) := by
  refine ⟨fun h1 => ?_, fun h1 h2 => ?_, fun h1 h2 => ?_⟩
  · simp [check_controls, h1]
  · simp [check_controls, h1, h2]
  · cases h3 : obs.stopAfterWait <;> simp [check_controls, h1, h2, h3]

/-- Witness for C1 at a concrete observation: stop requested while
paused (seen by the re-check after the wait) makes the call signal stop
after having slept and waited. -/
theorem check_controls_checkpoint_order_witness :
    check_controls true true ⟨false, false, true⟩ 1
      = ([CtrlEff.sleepFor 1, CtrlEff.pauseWait], true) :=
  (check_controls_checkpoint_order ⟨false, false, true⟩ 1).2.2 rfl rfl

theorem filter_isTerminal_map_item (l : List Dict) :
    (l.map SSE.item).filter SSE.isTerminal = [] := by
  induction l with
  | nil => rfl
  | cons d rest ih => simp [SSE.isTerminal, ih]

theorem getLast?_cons_concat {α : Type} (x : α) (l : List α) (a : α) :
    (x :: (l ++ [a])).getLast? = some a := by
  rw [← List.cons_append, List.getLast?_concat]

/-- C2: starting a new scrape stream while a session is active (with its
gate installed) first sets the old gate's stop flag and releases its
pause flag — still before any new event exists (the arena has not
grown) — then installs a fresh pause/stop pair (at fresh indices, pause
set = running, stop clear) and marks the session active; and on every
exit path of the stream the cleanup clears the active flag and both gate
references. -/
theorem session_gate_lifecycle (s : Sess) (i j : Nat)
    (hact : s.active = true) (hstop : s.stopRef = some i)
    (hpause : s.pauseRef = some j)
    (hi : i < s.evs.length) (hj : j < s.evs.length) :
    ((generate_force_stop_old s).evs.get? i = some true
      ∧ (generate_force_stop_old s).evs.get? j = some true
      ∧ (generate_force_stop_old s).evs.length = s.evs.length)
    ∧ ((generate_install_new (generate_force_stop_old s)).active = true
        ∧ (generate_install_new (generate_force_stop_old s)).pauseRef
            = some s.evs.length
        ∧ (generate_install_new (generate_force_stop_old s)).stopRef
            = some (s.evs.length + 1)
        ∧ (generate_install_new (generate_force_stop_old s)).evs.get?
            s.evs.length = some true
        ∧ (generate_install_new (generate_force_stop_old s)).evs.get?
            (s.evs.length + 1) = some false
        ∧ i < s.evs.length ∧ j < s.evs.length)
    ∧ (∀ total items err stp,
        ((generate_run s total items err stp).1).active = false
          ∧ ((generate_run s total items err stp).1).pauseRef = none
          ∧ ((generate_run s total items err stp).1).stopRef = none) := by
  have hcond : (s.active && s.stopRef.isSome) = true := by
    rw [hact, hstop]; rfl
  have hevs : (generate_force_stop_old s).evs = (s.evs.set i true).set j true := by
    simp [generate_force_stop_old, hcond, hstop, hpause, hact]
  have hlen : (generate_force_stop_old s).evs.length = s.evs.length := by
    simp [hevs]
  refine ⟨⟨?_, ?_, hlen⟩, ⟨?_, ?_, ?_, ?_, ?_, hi, hj⟩, ?_⟩
  · rw [hevs]
    by_cases hij : j = i
    · subst hij
      exact List.get?_set_eq_of_lt true (by simpa using hj)
    · rw [List.get?_set_ne true _ hij]
      exact List.get?_set_eq_of_lt true hi
  · rw [hevs]
    exact List.get?_set_eq_of_lt true (by simpa using hj)
  · rfl
  · simp [generate_install_new, hlen]
  · simp [generate_install_new, hlen]
  · show ((((generate_force_stop_old s).evs ++ [true]) ++ [false]).get?
        s.evs.length) = some true
    rw [List.get?_append (by simp [hlen]), ← hlen, List.get?_concat_length]
  · show ((((generate_force_stop_old s).evs ++ [true]) ++ [false]).get?
        (s.evs.length + 1)) = some false
    have : ((generate_force_stop_old s).evs ++ [true]).length = s.evs.length + 1 := by
      simp [hlen]
    rw [← this, List.get?_concat_length]
  · intro total items err stp
    refine ⟨rfl, rfl, rfl⟩

/-- Witness for C2 at a concrete active session (pause event 0 set,
stop event 1 clear). -/
theorem session_gate_lifecycle_witness :
    ((generate_force_stop_old sessFix).evs.get? 1 = some true
      ∧ (generate_force_stop_old sessFix).evs.get? 0 = some true
      ∧ (generate_force_stop_old sessFix).evs.length = sessFix.evs.length)
    ∧ ((generate_install_new (generate_force_stop_old sessFix)).active = true
        ∧ (generate_install_new (generate_force_stop_old sessFix)).pauseRef
            = some sessFix.evs.length
        ∧ (generate_install_new (generate_force_stop_old sessFix)).stopRef
            = some (sessFix.evs.length + 1)
        ∧ (generate_install_new (generate_force_stop_old sessFix)).evs.get?
            sessFix.evs.length = some true
        ∧ (generate_install_new (generate_force_stop_old sessFix)).evs.get?
            (sessFix.evs.length + 1) = some false
        ∧ 1 < sessFix.evs.length ∧ 0 < sessFix.evs.length)
    ∧ (∀ total items err stp,
        ((generate_run sessFix total items err stp).1).active = false
          ∧ ((generate_run sessFix total items err stp).1).pauseRef = none
          ∧ ((generate_run sessFix total items err stp).1).stopRef = none) :=
  session_gate_lifecycle sessFix 1 0 rfl rfl rfl (by decide) (by decide)

/-- C6: every scrape stream ends with exactly one terminal signal —
"error" if an exception escaped while producing the sequence, otherwise
"stopped" if the stop flag was set at the end of the item loop,
otherwise "done"; the terminal signal is the last event and no other
terminal signal occurs. -/
theorem stream_single_terminal (s : Sess) (total : Nat) (items : List Dict)
    (err : RunErr) (stp : Bool) :
    ((generate_run s total items err stp).2).filter SSE.isTerminal
        = [match err with
           | .noErr => if stp then SSE.stopped else SSE.done
           | .atCount msg => SSE.error msg
           | .atItem _ msg => SSE.error msg]
    ∧ ((generate_run s total items err stp).2).getLast?
        = some (match err with
                | .noErr => if stp then SSE.stopped else SSE.done
                | .atCount msg => SSE.error msg
                | .atItem _ msg => SSE.error msg) := by
  cases err with
  | atCount msg => exact ⟨rfl, rfl⟩
  | atItem k msg =>
    constructor
    · show (SSE.init total :: ((items.take k).map SSE.item ++ [SSE.error msg])).filter
          SSE.isTerminal = [SSE.error msg]
      rw [List.filter_cons_of_neg (by simp [SSE.isTerminal]), List.filter_append,
        filter_isTerminal_map_item]
      rfl
    · exact getLast?_cons_concat _ _ _
  | noErr =>
    constructor
    · show (SSE.init total :: (items.map SSE.item
          ++ [if stp then SSE.stopped else SSE.done])).filter SSE.isTerminal
          = [if stp then SSE.stopped else SSE.done]
      rw [List.filter_cons_of_neg (by simp [SSE.isTerminal]), List.filter_append,
        filter_isTerminal_map_item]
      cases stp <;> rfl
    · exact getLast?_cons_concat _ _ _

theorem set_of_get?_eq {α : Type} {l : List α} {n : Nat} {a : α}
    (h : l.get? n = some a) : l.set n a = l := by
  induction l generalizing n with
  | nil => simp at h
  | cons x rest ih =>
    cases n with
    | zero =>
      simp only [List.get?] at h
      cases h
      rfl
    | succ m =>
      simp only [List.get?] at h
      simp [List.set, ih h]

/-- C8: each control endpoint answers the no-active-session conflict
(never fatal — it returns a response) exactly when no session is active
or the relevant gate reference is absent; otherwise pause clears the
pause event (Paused), resume sets it (Running), and stop sets the stop
event — idempotently — and additionally sets the pause event so a
paused waiter observes the stop instead of blocking forever. -/
theorem control_endpoints_contract (s : Sess) :
    ((api_pause s).2 = CtrlResp.noActive ↔ (s.active = false ∨ s.pauseRef = none))
    ∧ ((api_resume s).2 = CtrlResp.noActive ↔ (s.active = false ∨ s.pauseRef = none))
    ∧ ((api_stop s).2 = CtrlResp.noActive ↔ (s.active = false ∨ s.stopRef = none))
    ∧ (∀ j, s.active = true → s.pauseRef = some j → j < s.evs.length →
        ((api_pause s).1.evs.get? j = some false
          ∧ (api_resume s).1.evs.get? j = some true))
    ∧ (∀ i, s.active = true → s.stopRef = some i → i < s.evs.length →
        ((api_stop s).1.evs.get? i = some true
          ∧ (∀ j, s.pauseRef = some j → j < s.evs.length →
              (api_stop s).1.evs.get? j = some true)
          ∧ (api_stop ((api_stop s).1)).1.evs = ((api_stop s).1).evs)) := by
  refine ⟨?_, ?_, ?_, ?_, ?_⟩
  · cases hp : s.pauseRef <;> cases ha : s.active <;>
      simp [api_pause, hp, ha]
  · cases hp : s.pauseRef <;> cases ha : s.active <;>
      simp [api_resume, hp, ha]
  · cases hst : s.stopRef <;> cases ha : s.active <;>
      simp [api_stop, hst, ha]
  · intro j hact hpref hlt
    constructor
    · simp only [api_pause, hpref, hact]
      exact List.get?_set_eq_of_lt false hlt
    · simp only [api_resume, hpref, hact]
      exact List.get?_set_eq_of_lt true hlt
  · intro i hact hsref hlt
    cases hp : s.pauseRef with
    | none =>
      have hpair : api_stop s
          = ({ s with evs := s.evs.set i true }, CtrlResp.ok "stopped") := by
        simp [api_stop, hsref, hact, hp]
      have hi : ((api_stop s).1).evs.get? i = some true := by
        rw [hpair]; exact List.get?_set_eq_of_lt true hlt
      refine ⟨hi, ?_, ?_⟩
      · intro j hj
        exact absurd hj (by simp)
      · have hpair2 : api_stop ((api_stop s).1)
            = ({ (api_stop s).1 with evs := ((api_stop s).1).evs.set i true },
               CtrlResp.ok "stopped") := by
          rw [hpair]
          simp [api_stop, hsref, hact, hp]
        rw [hpair2]
        exact set_of_get?_eq hi
    | some j =>
      have hpair : api_stop s
          = ({ s with evs := (s.evs.set i true).set j true },
             CtrlResp.ok "stopped") := by
        simp [api_stop, hsref, hact, hp]
      have hi : ((api_stop s).1).evs.get? i = some true := by
        rw [hpair]
        by_cases hij : j = i
        · subst hij; exact List.get?_set_eq_of_lt true (by simpa using hlt)
        · rw [List.get?_set_ne true _ hij]
          exact List.get?_set_eq_of_lt true hlt
      have hjtrue : j < s.evs.length → ((api_stop s).1).evs.get? j = some true := by
        intro hjl
        rw [hpair]
        exact List.get?_set_eq_of_lt true (by simpa using hjl)
      refine ⟨hi, ?_, ?_⟩
      · intro j' hj' hjlt
        cases hj'
        exact hjtrue hjlt
      · have hpair2 : api_stop ((api_stop s).1)
            = ({ (api_stop s).1 with
                  evs := (((api_stop s).1).evs.set i true).set j true },
               CtrlResp.ok "stopped") := by
          rw [hpair]
          simp [api_stop, hsref, hact, hp]
        rw [hpair2]
        show ((((api_stop s).1).evs.set i true).set j true) = ((api_stop s).1).evs
        rw [set_of_get?_eq hi]
        by_cases hjl : j < s.evs.length
        · exact set_of_get?_eq (hjtrue hjl)
        · refine List.set_eq_of_length_le ?_
          have hlen1 : ((api_stop s).1).evs.length = s.evs.length := by
            rw [hpair]; simp
          omega

/-- Witness for C8 at a concrete active session: pause clears event 0,
resume sets it. -/
theorem control_endpoints_contract_witness :
    (api_pause sessFix).1.evs.get? 0 = some false
      ∧ (api_resume sessFix).1.evs.get? 0 = some true :=
  (control_endpoints_contract sessFix).2.2.2.1 0 rfl rfl (by decide)

theorem metaLoop_mem (mode : String) (hasCb hasPause hasStop : Bool)
    (ctrl : PipeCtrl) (total : Nat) :
    ∀ posts i e, e ∈ metaLoop mode hasCb hasPause hasStop ctrl total i posts →
      (∃ p, p ∈ posts ∧ e = PipeEff.yieldItem (metaItem mode p))
      ∨ (∃ a b d, e = PipeEff.progress a b d)
      ∨ (∃ effs, e = PipeEff.checkpoint effs) := by
  intro posts
  induction posts with
  | nil =>
    intro i e he
    simp [metaLoop] at he
  | cons p rest ih =>
    intro i e he
    rw [metaLoop] at he
    split at he
    · simp at he
    · simp only [List.mem_append] at he
      rcases he with (h | h) | h
      · split at h
        · simp only [List.mem_singleton] at h
          exact Or.inr (Or.inl ⟨i + 1, total, metaItem mode p, h⟩)
        · simp at h
      · simp only [List.mem_singleton] at h
        exact Or.inl ⟨p, List.mem_cons_self p rest, h⟩
      · split at h
        · rcases List.mem_cons.mp h with h | h
          · exact Or.inr (Or.inr ⟨_, h⟩)
          · split at h
            · simp at h
            · rcases ih (i + 1) e h with ⟨p', hp', he'⟩ | h' | h'
              · exact Or.inl ⟨p', List.mem_cons_of_mem p hp', he'⟩
              · exact Or.inr (Or.inl h')
              · exact Or.inr (Or.inr h')
        · rcases ih (i + 1) e h with ⟨p', hp', he'⟩ | h' | h'
          · exact Or.inl ⟨p', List.mem_cons_of_mem p hp', he'⟩
          · exact Or.inr (Or.inl h')
          · exact Or.inr (Or.inr h')

theorem need_playwright_iff (fields : Option (List String)) (mode : String) :
    need_playwright fields mode = true
      ↔ (mode = "full"
          ∨ (∃ fs, fields = some fs ∧ ("likes" ∈ fs ∨ "comments" ∈ fs))
          ∨ fields = none) := by
  cases fields with
  | none => simp [need_playwright]
  | some fs => simp [need_playwright, List.contains]

/-- C3: browser-driven detail fetching is used iff content mode is
"full", or the field selection contains "likes" or "comments", or no
field selection was given; otherwise the run is metadata-only: no
browser session is launched or closed, and every yielded item is built
from the search metadata by the metadata-only construction. -/
theorem pipeline_browser_mode_iff (posts : List Dict)
    (fields : Option (List String)) (mode : String)
    (hasCb hasPause hasStop : Bool) (ctrl : PipeCtrl) (pageAt : Nat → Page) :
    (PipeEff.browserLaunch
        ∈ scrape_all_posts posts fields mode hasCb hasPause hasStop ctrl pageAt
      ↔ (mode = "full"
          ∨ (∃ fs, fields = some fs ∧ ("likes" ∈ fs ∨ "comments" ∈ fs))
          ∨ fields = none))
    ∧ (need_playwright fields mode = false →
        (PipeEff.browserLaunch
            ∉ scrape_all_posts posts fields mode hasCb hasPause hasStop ctrl pageAt
          ∧ PipeEff.browserClose
            ∉ scrape_all_posts posts fields mode hasCb hasPause hasStop ctrl pageAt
          ∧ ∀ d, PipeEff.yieldItem d
              ∈ scrape_all_posts posts fields mode hasCb hasPause hasStop ctrl pageAt →
              ∃ p, p ∈ posts ∧ d = metaItem mode p)) := by
  have hiff := need_playwright_iff fields mode
  cases hnp : need_playwright fields mode with
  | true =>
    have hrhs := hiff.mp hnp
    refine ⟨⟨fun _ => hrhs, fun _ => ?_⟩, fun hfalse => by simp [hnp] at hfalse⟩
    simp [scrape_all_posts, hnp]
  | false =>
    have hnotrhs : ¬(mode = "full"
        ∨ (∃ fs, fields = some fs ∧ ("likes" ∈ fs ∨ "comments" ∈ fs))
        ∨ fields = none) := fun h => by
      rw [hiff.mpr h] at hnp
      exact absurd hnp (by decide)
    have hmeta : scrape_all_posts posts fields mode hasCb hasPause hasStop ctrl pageAt
        = metaLoop mode hasCb hasPause hasStop ctrl posts.length 0 posts := by
      simp [scrape_all_posts, hnp]
    refine ⟨⟨fun hmem => absurd ?_ hnotrhs, fun h => absurd h hnotrhs⟩,
      fun _ => ⟨?_, ?_, ?_⟩⟩
    · exfalso
      rw [hmeta] at hmem
      rcases metaLoop_mem mode hasCb hasPause hasStop ctrl posts.length posts 0 _ hmem
        with ⟨p', _, h⟩ | ⟨a, b, d, h⟩ | ⟨effs, h⟩ <;> simp at h
    · intro hmem
      rw [hmeta] at hmem
      rcases metaLoop_mem mode hasCb hasPause hasStop ctrl posts.length posts 0 _ hmem
        with ⟨p', _, h⟩ | ⟨a, b, d, h⟩ | ⟨effs, h⟩ <;> simp at h
    · intro hmem
      rw [hmeta] at hmem
      rcases metaLoop_mem mode hasCb hasPause hasStop ctrl posts.length posts 0 _ hmem
        with ⟨p', _, h⟩ | ⟨a, b, d, h⟩ | ⟨effs, h⟩ <;> simp at h
    · intro d hd
      rw [hmeta] at hd
      rcases metaLoop_mem mode hasCb hasPause hasStop ctrl posts.length posts 0 _ hd
        with ⟨p', hp', h⟩ | ⟨a, b, d', h⟩ | ⟨effs, h⟩
      · injection h with h'
        exact ⟨p', hp', h'⟩
      · simp at h
      · simp at h

/-- Witness for C3: with fields {title} and preview mode, a concrete run
launches no browser. -/
theorem pipeline_browser_mode_iff_witness :
    PipeEff.browserLaunch
      ∉ scrape_all_posts [metaFix] (some ["title"]) "preview" false true true
          ctrlFix (fun _ => pageOk) :=
  ((pipeline_browser_mode_iff [metaFix] (some ["title"]) "preview" false true true
      ctrlFix (fun _ => pageOk)).2 (by decide)).1

theorem fetchLoop_shape (ld : Nat → String) (r : SearchRemote) (tp : Nat) :
    ∀ rem page,
      fetchLoop ld r tp page rem
        = (((List.range' page rem).map (fun p => FetchEff.pageReq p ::
              (if p < tp then [FetchEff.interDelay (3/10) (4/5)] else []))).join,
           ((List.range' page rem).map (fun p =>
              (r.pageItems p).map (toPostMeta ld))).join) := by
  intro rem
  induction rem with
  | zero => intro page; simp [fetchLoop]
  | succ m ih =>
    intro page
    rw [fetchLoop, ih (page + 1)]
    simp [List.range'_succ]

theorem filter_isPageReq_block (tp : Nat) (L : List Nat) :
    ((L.map (fun p => FetchEff.pageReq p ::
        (if p < tp then [FetchEff.interDelay (3/10) (4/5)] else []))).join.filter
      isPageReq)
    = L.map FetchEff.pageReq := by
  induction L with
  | nil => rfl
  | cons p rest ih =>
    by_cases h : p < tp <;>
      simp [h, ih, isPageReq, List.filter_append]

/-- C4: for a remote endpoint reporting total count N,
`fetch_search_list` issues, after the count query, exactly ⌈N / 7⌉ page
requests in page order 1..⌈N / 7⌉ (the first conjunct characterizes the
page total as the ceiling of N / ITEMS_PER_PAGE), concatenates the
per-page results in that order, and puts one randomized delay with
bounds [0.3, 0.8] between consecutive page requests and none after the
last page. -/
theorem fetch_search_list_paging (ld : Nat → String) (r : SearchRemote) :
    (∀ m : Nat, ((r.totalCount + (ITEMS_PER_PAGE - 1)) / ITEMS_PER_PAGE ≤ m
        ↔ r.totalCount ≤ ITEMS_PER_PAGE * m))
    ∧ (fetch_search_list ld r).1
        = FetchEff.countReq ::
            ((List.range' 1 ((r.totalCount + (ITEMS_PER_PAGE - 1)) / ITEMS_PER_PAGE)).map
              (fun p => FetchEff.pageReq p ::
                (if p < (r.totalCount + (ITEMS_PER_PAGE - 1)) / ITEMS_PER_PAGE
                 then [FetchEff.interDelay (3/10) (4/5)] else []))).join
    ∧ (fetch_search_list ld r).2
        = ((List.range' 1 ((r.totalCount + (ITEMS_PER_PAGE - 1)) / ITEMS_PER_PAGE)).map
            (fun p => (r.pageItems p).map (toPostMeta ld))).join
    ∧ ((fetch_search_list ld r).1.filter isPageReq)
        = (List.range' 1 ((r.totalCount + (ITEMS_PER_PAGE - 1)) / ITEMS_PER_PAGE)).map
            FetchEff.pageReq
    ∧ ((fetch_search_list ld r).1.filter isPageReq).length
        = (r.totalCount + (ITEMS_PER_PAGE - 1)) / ITEMS_PER_PAGE := by
  have hshape := fetchLoop_shape ld r
    ((r.totalCount + (ITEMS_PER_PAGE - 1)) / ITEMS_PER_PAGE)
    ((r.totalCount + (ITEMS_PER_PAGE - 1)) / ITEMS_PER_PAGE) 1
  have h1 : (fetch_search_list ld r).1
      = FetchEff.countReq ::
          ((List.range' 1 ((r.totalCount + (ITEMS_PER_PAGE - 1)) / ITEMS_PER_PAGE)).map
            (fun p => FetchEff.pageReq p ::
              (if p < (r.totalCount + (ITEMS_PER_PAGE - 1)) / ITEMS_PER_PAGE
               then [FetchEff.interDelay (3/10) (4/5)] else []))).join := by
    simp only [fetch_search_list, count_posts, hshape]
    rfl
  have h2 : (fetch_search_list ld r).2
      = ((List.range' 1 ((r.totalCount + (ITEMS_PER_PAGE - 1)) / ITEMS_PER_PAGE)).map
          (fun p => (r.pageItems p).map (toPostMeta ld))).join := by
    simp only [fetch_search_list, count_posts, hshape]
  have h3 : ((fetch_search_list ld r).1.filter isPageReq)
      = (List.range' 1 ((r.totalCount + (ITEMS_PER_PAGE - 1)) / ITEMS_PER_PAGE)).map
          FetchEff.pageReq := by
    rw [h1, List.filter_cons_of_neg (by simp [isPageReq]), filter_isPageReq_block]
  refine ⟨?_, h1, h2, h3, ?_⟩
  · intro m
    simp only [ITEMS_PER_PAGE]
    omega
  · rw [h3]
    simp

/-- C10: `scrape_post_detail` returns a dict that agrees with the input
metadata on every key other than content, likes and comments (in
particular url, title, author, blog_name, date, blog_id, log_no and
snippet are unchanged); only those three fields are added or
overridden. -/
theorem detail_preserves_metadata (page : Page) (meta : Dict)
    (fields : Option (List String)) (mode : String) (u : Val)
    (hu : meta.get? "url" = some u) (k : String)
    (hk1 : k ≠ "content") (hk2 : k ≠ "likes") (hk3 : k ≠ "comments") :
    (scrape_post_detail page meta fields mode).map (fun r => (r.1).get? k)
      = some (meta.get? k) := by
  have hc : ∀ (d : Dict) (v : Val), (Dict.insert d "content" v).get? k = d.get? k :=
    fun d v => Dict.get?_insert_ne d "content" k v hk1
  have hl : ∀ (d : Dict) (v : Val), (Dict.insert d "likes" v).get? k = d.get? k :=
    fun d v => Dict.get?_insert_ne d "likes" k v hk2
  have hm : ∀ (d : Dict) (v : Val), (Dict.insert d "comments" v).get? k = d.get? k :=
    fun d v => Dict.get?_insert_ne d "comments" k v hk3
  unfold scrape_post_detail
  rw [hu]
  cases page.nav with
  | timeout =>
    by_cases hf : (mode == "full") = true <;> simp [hf, hc, hl, hm]
  | fail msg =>
    by_cases hf : (mode == "full") = true <;> simp [hf, hc, hl, hm]
  | ok =>
    by_cases hf : (mode == "full") = true <;>
      by_cases h2 : wantsField fields "likes" = true <;>
        by_cases h3 : wantsField fields "comments" = true <;>
          simp [hf, h2, h3, hc, hl, hm]

/-- Witness for C10: a timed-out fetch in preview mode leaves the
snippet key of a concrete metadata item unchanged. -/
theorem detail_preserves_metadata_witness :
    (scrape_post_detail pageTimeout metaFix none "preview").map
        (fun r => (r.1).get? "snippet") = some (metaFix.get? "snippet") :=
  detail_preserves_metadata pageTimeout metaFix none "preview"
    (Val.s "https://blog.example/post/1") rfl "snippet"
    (by decide) (by decide) (by decide)

theorem scrape_post_detail_isSome (page : Page) (meta : Dict)
    (fields : Option (List String)) (mode : String) (v : Val)
    (hv : meta.get? "url" = some v) :
    ∃ de, scrape_post_detail page meta fields mode = some de := by
  unfold scrape_post_detail
  rw [hv]
  cases page.nav <;> exact ⟨_, rfl⟩

theorem browserLoop_no_raise (fields : Option (List String)) (mode : String)
    (hasCb hasPause hasStop : Bool) (ctrl : PipeCtrl) (pageAt : Nat → Page)
    (total : Nat) :
    ∀ posts i, (∀ p, p ∈ posts → ∃ v, Dict.get? p "url" = some v) →
      PipeEff.raised
        ∉ browserLoop fields mode hasCb hasPause hasStop ctrl pageAt total i posts := by
  intro posts
  induction posts with
  | nil =>
    intro i _ hmem
    simp [browserLoop] at hmem
  | cons p rest ih =>
    intro i hurl hmem
    rw [browserLoop] at hmem
    split at hmem
    · simp at hmem
    · obtain ⟨v, hv⟩ := hurl p (List.mem_cons_self p rest)
      obtain ⟨de, hde⟩ :=
        scrape_post_detail_isSome (pageAt i) p fields mode v hv
      rw [hde] at hmem
      have hurl' : ∀ q, q ∈ rest → ∃ v, Dict.get? q "url" = some v :=
        fun q hq => hurl q (List.mem_cons_of_mem p hq)
      simp only [List.mem_append] at hmem
      rcases hmem with (h | h) | h
      · split at h <;> simp at h
      · simp at h
      · split at h
        · rcases List.mem_cons.mp h with h | h
          · simp at h
          · split at h
            · simp at h
            · exact ih (i + 1) hurl' h
        · exact ih (i + 1) hurl' h

/-- C5: a detail fetch whose navigation fails (timeout or any other
exception) still returns a PostDetail: likes and comments are zero, and
content is the descriptive sentinel when the mode is "full" (otherwise
content keeps the snippet/empty default); and a pipeline run never
observes an uncaught exception from the item loop when every metadata
item carries a url. -/
theorem detail_failure_absorbed (page : Page) (meta : Dict)
    (fields : Option (List String)) (mode : String) (u : Val)
    (hu : meta.get? "url" = some u) (hnav : page.nav ≠ NavOutcome.ok) :
    (∃ d effs, scrape_post_detail page meta fields mode = some (d, effs)
      ∧ d.get? "likes" = some (Val.n 0)
      ∧ d.get? "comments" = some (Val.n 0)
      ∧ (page.nav = NavOutcome.timeout → mode = "full" →
          d.get? "content" = some (Val.s "[타임아웃: 페이지 로드 실패]"))
      ∧ (∀ msg, page.nav = NavOutcome.fail msg → mode = "full" →
          d.get? "content" = some (Val.s ("[오류: " ++ pyTake 200 msg ++ "]")))
      ∧ (mode = "preview" → d.get? "content" = some (meta.getD "snippet" (Val.s "")))
      ∧ (mode ≠ "preview" → mode ≠ "full" → d.get? "content" = some (Val.s "")))
    ∧ (∀ posts f m cb hp hs ctrl pageAt,
        (∀ p, p ∈ posts → ∃ v, Dict.get? p "url" = some v) →
        PipeEff.raised ∉ scrape_all_posts posts f m cb hp hs ctrl pageAt) := by
  constructor
  · unfold scrape_post_detail
    rw [hu]
    cases hnav' : page.nav with
    | ok => exact absurd hnav' hnav
    | timeout =>
      by_cases hf : (mode == "full") = true
      · have hmode : mode = "full" := by simpa using hf
        refine ⟨_, _, rfl, ?_, ?_, ?_, ?_, ?_, ?_⟩ <;>
          simp [hmode, Dict.get?_insert_self, Dict.get?_insert_ne]
      · have hmode : mode ≠ "full" := by simpa using hf
        by_cases hp : (mode == "preview") = true
        · have hmode2 : mode = "preview" := by simpa using hp
          refine ⟨_, _, rfl, ?_, ?_, ?_, ?_, ?_, ?_⟩ <;>
            simp [hmode2, hp, Dict.get?_insert_self, Dict.get?_insert_ne]
        · have hmode2 : mode ≠ "preview" := by simpa using hp
          refine ⟨_, _, rfl, ?_, ?_, ?_, ?_, ?_, ?_⟩ <;>
            simp [hmode, hmode2, hp, Dict.get?_insert_self, Dict.get?_insert_ne]
    | fail msg =>
      by_cases hf : (mode == "full") = true
      · have hmode : mode = "full" := by simpa using hf
        refine ⟨_, _, rfl, ?_, ?_, ?_, ?_, ?_, ?_⟩ <;>
          simp [hmode, Dict.get?_insert_self, Dict.get?_insert_ne]
      · have hmode : mode ≠ "full" := by simpa using hf
        by_cases hp : (mode == "preview") = true
        · have hmode2 : mode = "preview" := by simpa using hp
          refine ⟨_, _, rfl, ?_, ?_, ?_, ?_, ?_, ?_⟩ <;>
            simp [hmode2, hp, Dict.get?_insert_self, Dict.get?_insert_ne]
        · have hmode2 : mode ≠ "preview" := by simpa using hp
          refine ⟨_, _, rfl, ?_, ?_, ?_, ?_, ?_, ?_⟩ <;>
            simp [hmode, hmode2, hp, Dict.get?_insert_self, Dict.get?_insert_ne]
  · intro posts f m cb hp hs ctrl pageAt hurl hmem
    by_cases hnp : need_playwright f m = true
    · simp only [scrape_all_posts, hnp, if_true] at hmem
      rcases List.mem_cons.mp hmem with h | h
      · simp at h
      · rcases List.mem_append.mp h with h | h
        · exact browserLoop_no_raise f m cb hp hs ctrl pageAt posts.length
            posts 0 hurl h
        · simp at h
    · simp only [scrape_all_posts, Bool.not_eq_true] at hnp
      simp only [scrape_all_posts, hnp, Bool.false_eq_true, if_false] at hmem
      rcases metaLoop_mem m cb hp hs ctrl posts.length posts 0 _ hmem
        with ⟨p', _, h⟩ | ⟨a, b, d, h⟩ | ⟨effs, h⟩ <;> simp at h

/-- Witness for C5: a concrete timed-out fetch in full mode yields the
timeout sentinel and zero counts. -/
theorem detail_failure_absorbed_witness :
    ∃ d effs, scrape_post_detail pageTimeout metaFix (some ["likes"]) "full"
        = some (d, effs)
      ∧ d.get? "likes" = some (Val.n 0)
      ∧ d.get? "comments" = some (Val.n 0)
      ∧ (pageTimeout.nav = NavOutcome.timeout → "full" = "full" →
          d.get? "content" = some (Val.s "[타임아웃: 페이지 로드 실패]"))
      ∧ (∀ msg, pageTimeout.nav = NavOutcome.fail msg → "full" = "full" →
          d.get? "content" = some (Val.s ("[오류: " ++ pyTake 200 msg ++ "]")))
      ∧ ("full" = "preview" →
          d.get? "content" = some (metaFix.getD "snippet" (Val.s "")))
      ∧ ("full" ≠ "preview" → "full" ≠ "full" →
          d.get? "content" = some (Val.s "")) :=
  (detail_failure_absorbed pageTimeout metaFix (some ["likes"]) "full"
    (Val.s "https://blog.example/post/1") rfl (by decide)).1

/-- C7 counterexample: on a frame where the modern editor container
matches with whitespace-only text while the legacy container
`#postViewArea` holds "hello", `_extract_content` returns the empty
string — neither the first non-empty result ("hello") nor the
sentinel — refuting "returns the first non-empty text result". -/
theorem extract_content_first_nonempty_cex :
    extract_content cexFrame = ""
      ∧ extract_content_claimed cexFrame = "hello"
      ∧ extract_content cexFrame ≠ extract_content_claimed cexFrame
      ∧ extract_content cexFrame ≠ contentFailSentinel := by decide

/-- C7 amended: `_extract_content` tries the four container selectors in
fixed order and returns the stripped text of the first selector whose
element exists — which may be empty; if no selector matches an element,
or a lookup raises, it returns the sentinel failure marker.  It never
throws (the first-match characterization is total). -/
theorem extract_content_first_match (f : Frame) :
    extract_content f
      = match firstFound f contentSelectors with
        | QueryRes.found t => pyStrip t
        | QueryRes.notFound => contentFailSentinel
        | QueryRes.error => contentFailSentinel := by
  unfold extract_content
  cases h1 : f.q ".se-main-container" with
  | found t => simp [contentSelectors, firstFound, h1]
  | error => simp [contentSelectors, firstFound, h1]
  | notFound =>
    cases h2 : f.q "#postViewArea" with
    | found t => simp [contentSelectors, firstFound, h1, h2]
    | error => simp [contentSelectors, firstFound, h1, h2]
    | notFound =>
      cases h3 : f.q "#post-view" with
      | found t => simp [contentSelectors, firstFound, h1, h2, h3]
      | error => simp [contentSelectors, firstFound, h1, h2, h3]
      | notFound =>
        cases h4 : f.q ".se_component_wrap" <;>
          simp [contentSelectors, firstFound, h1, h2, h3, h4]

/-- C9 counterexample: with field selection exactly {title, likes} the
claim fails on the code in two ways: in "full" content mode the
content-extraction routine IS called (content extraction is governed by
the content mode, not the field selection), and on a navigation timeout
the likes-extraction routine is NOT called. -/
theorem detail_field_filter_cex :
    (scrape_post_detail pageOk metaFix (some ["title", "likes"]) "full").map
        (fun r => r.2.contains DetailEff.callExtractContent) = some true
    ∧ (scrape_post_detail pageTimeout metaFix (some ["title", "likes"]) "preview").map
        (fun r => r.2.contains DetailEff.callExtractLikes) = some false := by
  decide

/-- C9 amended: for every detail fetch with field selection exactly
{title, likes}: the comment-extraction routine is never called and
comments stays 0; when navigation succeeds the likes-extraction routine
is called and the content-extraction routine runs iff the content mode
is "full" (field selection does not govern content extraction); when
navigation fails no extraction routine runs and likes also stays 0. -/
theorem detail_field_filter_amended (page : Page) (meta : Dict) (mode : String)
    (u : Val) (hu : meta.get? "url" = some u) :
    ∃ d effs,
      scrape_post_detail page meta (some ["title", "likes"]) mode = some (d, effs)
      ∧ DetailEff.callExtractComments ∉ effs
      ∧ d.get? "comments" = some (Val.n 0)
      ∧ (page.nav = NavOutcome.ok →
          (DetailEff.callExtractLikes ∈ effs
            ∧ (DetailEff.callExtractContent ∈ effs ↔ mode = "full")))
      ∧ (page.nav ≠ NavOutcome.ok →
          (DetailEff.callExtractLikes ∉ effs
            ∧ d.get? "likes" = some (Val.n 0))) := by
  have hwl : wantsField (some ["title", "likes"]) "likes" = true := by decide
  have hwc : wantsField (some ["title", "likes"]) "comments" = false := by decide
  unfold scrape_post_detail
  rw [hu]
  cases hnav : page.nav with
  | ok =>
    refine ⟨_, _, rfl, ?_, ?_, ?_, ?_⟩
    · by_cases hf : (mode == "full") = true <;>
        simp [hf, hwl, hwc]
    · by_cases hf : (mode == "full") = true <;>
        simp [hf, hwl, hwc, Dict.get?_insert_self, Dict.get?_insert_ne]
    · intro _
      constructor
      · by_cases hf : (mode == "full") = true <;>
          simp [hf, hwl, hwc]
      · by_cases hf : (mode == "full") = true
        · have hmode : mode = "full" := by simpa using hf
          simp [hf, hwl, hwc, hmode]
        · have hmode : mode ≠ "full" := by simpa using hf
          simp [hf, hwl, hwc, hmode]
    · intro hno
      exact absurd rfl hno
  | timeout =>
    refine ⟨_, _, rfl, ?_, ?_, ?_, ?_⟩
    · by_cases hf : (mode == "full") = true <;> simp [hf]
    · by_cases hf : (mode == "full") = true <;>
        simp [hf, Dict.get?_insert_self, Dict.get?_insert_ne]
    · intro h; exact absurd h (by simp)
    · intro _
      constructor
      · by_cases hf : (mode == "full") = true <;> simp [hf]
      · by_cases hf : (mode == "full") = true <;>
          simp [hf, Dict.get?_insert_self, Dict.get?_insert_ne]
  | fail msg =>
    refine ⟨_, _, rfl, ?_, ?_, ?_, ?_⟩
    · by_cases hf : (mode == "full") = true <;> simp [hf]
    · by_cases hf : (mode == "full") = true <;>
        simp [hf, Dict.get?_insert_self, Dict.get?_insert_ne]
    · intro h; exact absurd h (by simp)
    · intro _
      constructor
      · by_cases hf : (mode == "full") = true <;> simp [hf]
      · by_cases hf : (mode == "full") = true <;>
          simp [hf, Dict.get?_insert_self, Dict.get?_insert_ne]

/-- Witness for C9's amended statement at a concrete successful fetch
in preview mode. -/
theorem detail_field_filter_amended_witness :
    ∃ d effs,
      scrape_post_detail pageOk metaFix (some ["title", "likes"]) "preview"
        = some (d, effs)
      ∧ DetailEff.callExtractComments ∉ effs
      ∧ d.get? "comments" = some (Val.n 0)
      ∧ (pageOk.nav = NavOutcome.ok →
          (DetailEff.callExtractLikes ∈ effs
            ∧ (DetailEff.callExtractContent ∈ effs ↔ "preview" = "full")))
      ∧ (pageOk.nav ≠ NavOutcome.ok →
          (DetailEff.callExtractLikes ∉ effs
            ∧ d.get? "likes" = some (Val.n 0))) :=
  detail_field_filter_amended pageOk metaFix "preview"
    (Val.s "https://blog.example/post/1") rfl

end NaverScraper
